import Mathlib

/-!
Shallow embedding of the piano-roll core of the Audio2MIDI mini-app
frontend (PianoRoll component, file src/frontend/src/App.tsx), together
with theorems checking the natural-language specification against it.

Numbers that are JavaScript floating-point values in the source are
modelled as rationals; MIDI pitches as integers; the component state as
an explicit record threaded through the handlers.
-/

namespace PianoRollApp

/- ── constants (App.tsx lines 72-78) ── -/

def MIN_PITCH : ℤ := 21
def MAX_PITCH : ℤ := 108
def PIANO_KEY_WIDTH : ℚ := 56
def NOTE_HEIGHT_BASE : ℚ := 14
def PIXELS_PER_SEC_BASE : ℚ := 120

/- ── data model ── -/

/-- A note as produced by the external MIDI parser (fields read by
loadMidi from a parsed track: n.midi, n.time, n.duration, n.velocity). -/
structure ParsedNote where
  midi : ℤ
  time : ℚ
  duration : ℚ
  velocity : ℚ

/-- The result of a successful parse: the ordered list of tracks, each an
ordered list of parsed notes. -/
structure ParsedMidi where
  tracks : List (List ParsedNote)

/-- The MidiNote record built by loadMidi (App.tsx lines 95-101). -/
structure MidiNote where
  pitch : ℤ
  time : ℚ
  duration : ℚ
  velocity : ℚ
  track : ℕ

/-- One audio trigger scheduled by startPlayback: delay relative to the
transport start, pitch, sustain length, amplitude
(App.tsx lines 282-291). -/
structure SchedTrigger where
  delay : ℚ
  pitch : ℤ
  dur : ℚ
  amp : ℚ

/-- The pan and zoom parameters read by the draw code. -/
structure ViewState where
  zoom : ℚ
  scrollX : ℚ
  scrollY : ℚ

/-- The PianoRoll component state (React useState hooks plus the refs and
canvas geometry that the handlers read). Canvas width and height are in
physical pixels; dpr is the device pixel ratio. -/
structure PianoRollState where
  midi : Option ParsedMidi
  notes : List MidiNote
  zoom : ℚ
  scrollX : ℚ
  scrollY : ℚ
  isPlaying : Bool
  playStartTime : ℚ
  playOffset : ℚ
  duration : ℚ
  fileName : String
  isAutoLoading : Bool
  autoLoadError : Option String
  pending : List SchedTrigger
  sustaining : Bool
  canvasWidth : ℚ
  canvasHeight : ℚ
  dpr : ℚ

namespace PianoRollState

/-- noteHeight = NOTE_HEIGHT_BASE * zoom (App.tsx line 134). -/
def noteHeight (st : PianoRollState) : ℚ := NOTE_HEIGHT_BASE * st.zoom

/-- pixelsPerSec = PIXELS_PER_SEC_BASE * zoom (App.tsx line 135). -/
def pixelsPerSec (st : PianoRollState) : ℚ := PIXELS_PER_SEC_BASE * st.zoom

/-- totalHeight = pitchRange * noteHeight, with
pitchRange = MAX_PITCH - MIN_PITCH + 1 = 88 (App.tsx lines 138-139). -/
def totalHeight (st : PianoRollState) : ℚ :=
  ((MAX_PITCH - MIN_PITCH + 1 : ℤ) : ℚ) * st.noteHeight

/-- The scrollY clamp bound used by the wheel and touch handlers:
max(0, totalHeight - canvas.height / dpr) (App.tsx lines 511, 556). -/
def maxScrollY (st : PianoRollState) : ℚ :=
  max 0 (st.totalHeight - st.canvasHeight / st.dpr)

/-- The view parameters the draw code reads from the state. -/
def view (st : PianoRollState) : ViewState :=
  ⟨st.zoom, st.scrollX, st.scrollY⟩

end PianoRollState

/- ── coordinate transforms, as inlined in draw (App.tsx 409, 411) ── -/

/-- y = (MAX_PITCH - pitch) * nh - sy, with nh = NOTE_HEIGHT_BASE * zoom
(App.tsx line 411). -/
def pitchToY (pitch : ℚ) (v : ViewState) : ℚ :=
  ((MAX_PITCH : ℤ) - pitch) * (NOTE_HEIGHT_BASE * v.zoom) - v.scrollY

/-- x = keyW + time * pps - sx, with pps = PIXELS_PER_SEC_BASE * zoom and
keyW = PIANO_KEY_WIDTH (App.tsx line 409). -/
def timeToX (time : ℚ) (v : ViewState) : ℚ :=
  PIANO_KEY_WIDTH + time * (PIXELS_PER_SEC_BASE * v.zoom) - v.scrollX

/- ── note screen geometry and culling (App.tsx 407-417) ── -/

/-- Screen x of a note left edge (App.tsx line 409). -/
def noteScreenX (n : MidiNote) (v : ViewState) : ℚ := timeToX n.time v

/-- Screen width of a note: w = duration * pps (App.tsx line 410). -/
def noteScreenW (n : MidiNote) (v : ViewState) : ℚ :=
  n.duration * (PIXELS_PER_SEC_BASE * v.zoom)

/-- Screen y of a note top edge (App.tsx line 411). -/
def noteScreenY (n : MidiNote) (v : ViewState) : ℚ := pitchToY (n.pitch : ℚ) v

/-- The culling test of the note loop: the note is skipped when
x + w < keyW, or x > W, or y + nh < 0, or y > H (App.tsx line 414).
W and H are the logical canvas width and height. -/
def noteCulled (n : MidiNote) (v : ViewState) (W H : ℚ) : Prop :=
  noteScreenX n v + noteScreenW n v < PIANO_KEY_WIDTH ∨
  noteScreenX n v > W ∨
  noteScreenY n v + NOTE_HEIGHT_BASE * v.zoom < 0 ∨
  noteScreenY n v > H

instance (n : MidiNote) (v : ViewState) (W H : ℚ) :
    Decidable (noteCulled n v W H) := by
  unfold noteCulled; infer_instance

/-- A note produces draw calls exactly when it survives the culling test. -/
def noteDrawn (n : MidiNote) (v : ViewState) (W H : ℚ) : Prop :=
  ¬ noteCulled n v W H

/-- The clamped left edge of the drawn rectangle:
clampX = max(x, keyW) (App.tsx line 416). -/
def noteClampX (n : MidiNote) (v : ViewState) : ℚ :=
  max (noteScreenX n v) PIANO_KEY_WIDTH

/-- The clamped width of the drawn rectangle:
clampW = min(x + w, W) - clampX (App.tsx line 417). -/
def noteClampW (n : MidiNote) (v : ViewState) (W : ℚ) : ℚ :=
  min (noteScreenX n v + noteScreenW n v) W - noteClampX n v

/- ── playback (App.tsx 262-309) ── -/

/-- The trigger scheduled for one note: delay max(0, time - playOffset),
sustain min(duration, 4), amplitude velocity * 0.8
(App.tsx lines 282-290). -/
def mkTrigger (playOffset : ℚ) (n : MidiNote) : SchedTrigger :=
  ⟨max 0 (n.time - playOffset), n.pitch, min n.duration 4,
   n.velocity * (8/10)⟩

/-- startPlayback (App.tsx lines 262-298): no-op on an empty note list;
otherwise schedules one trigger per note whose end has not passed the
seek offset (the loop skips n when n.time + n.duration < playOffset),
records playStartTime = now - playOffset and sets isPlaying. -/
def startPlayback (now : ℚ) (st : PianoRollState) : PianoRollState :=
  if st.notes.length = 0 then st
  else
    let trigs :=
      (st.notes.filter
        (fun n => ! decide (n.time + n.duration < st.playOffset))).map
        (mkTrigger st.playOffset)
    { st with pending := trigs,
              playStartTime := now - st.playOffset,
              isPlaying := true }

/-- stopPlayback (App.tsx lines 300-309): clears isPlaying, cancels every
pending transport trigger, releases sustaining voices, resets the seek
offset to 0. -/
def stopPlayback (st : PianoRollState) : PianoRollState :=
  { st with isPlaying := false,
            pending := [],
            sustaining := false,
            playOffset := 0 }

/- ── document loading (App.tsx 142-183) ── -/

/-- The flattening loop of loadMidi (App.tsx lines 148-159), carrying the
index of the next track: every track in order, every note in order,
tagged with its track index. -/
def flattenTracksFrom (i : ℕ) : List (List ParsedNote) → List MidiNote
  | [] => []
  | t :: ts =>
    t.map (fun n => ⟨n.midi, n.time, n.duration, n.velocity, i⟩)
      ++ flattenTracksFrom (i + 1) ts

/-- The flattening loop of loadMidi (App.tsx lines 148-159): every track
in order, every note in order, tagged with its track index. -/
def flattenTracks (tracks : List (List ParsedNote)) : List MidiNote :=
  flattenTracksFrom 0 tracks

/-- The mid-range pitch that the auto-centering of loadMidi computes
(App.tsx lines 168-170): the reduce with initial value 127 for the
minimum, 0 for the maximum, and their average. -/
def midRangePitch (notes : List MidiNote) : ℚ :=
  let minP := notes.foldl (fun m n => min m n.pitch) 127
  let maxP := notes.foldl (fun m n => max m n.pitch) 0
  (((minP + maxP) : ℤ) : ℚ) / 2

/-- loadMidi (App.tsx lines 142-183). The try block around the parser call
is modelled by the Option argument: none is the catch branch (an alert is
shown; no state is written). On success the state receives the parsed
document, the flattened notes, the total duration, scrollX reset to 0,
the vertical auto-centering on (minPitch + maxPitch) / 2 clamped to 0
(lines 166-176, using the physical canvas.height), and stopPlayback. -/
def loadMidi (parseResult : Option ParsedMidi) (name : String)
    (st : PianoRollState) : PianoRollState :=
  match parseResult with
  | none => st
  | some parsed =>
    let allNotes := flattenTracks parsed.tracks
    let maxTime := allNotes.foldl (fun m n => max m (n.time + n.duration)) 0
    let st1 := { st with midi := some parsed,
                         fileName := name,
                         notes := allNotes,
                         duration := maxTime,
                         scrollX := 0 }
    let st2 :=
      if allNotes.length > 0 then
        let yCenter :=
          (((MAX_PITCH : ℤ) : ℚ) - midRangePitch allNotes)
            * (NOTE_HEIGHT_BASE * st.zoom) - st.canvasHeight / 2
        { st1 with scrollY := max 0 yCenter }
      else st1
    stopPlayback st2

/-- The outcome of one /api/latest-midi request as seen by the completion
handler of loadFromApi (App.tsx lines 225-255): a 404, a failure (HTTP
error, transport error, missing data, or base64 decode error), or a
decoded byte buffer whose parse outcome and file name are given. -/
inductive ApiOutcome where
  | notFound : ApiOutcome
  | failed : String → ApiOutcome
  | success : Option ParsedMidi → String → ApiOutcome

/-- Issuing a load request (App.tsx lines 206-207): sets isAutoLoading and
clears autoLoadError before the fetch is awaited. -/
def issueLoad (st : PianoRollState) : PianoRollState :=
  { st with isAutoLoading := true, autoLoadError := none }

/-- Resolving a load request (App.tsx lines 225-255): a 404 returns with no
state change; a failure records the message in autoLoadError; a success
runs loadMidi on the decoded buffer. The finally block clears
isAutoLoading. No request id is consulted: the handler applies its
outcome unconditionally. -/
def resolveLoad (r : ApiOutcome) (st : PianoRollState) : PianoRollState :=
  let st1 :=
    match r with
    | .notFound => st
    | .failed msg => { st with autoLoadError := some msg }
    | .success parseResult name => loadMidi parseResult name st
  { st1 with isAutoLoading := false }

/- ── gesture handlers (App.tsx 502-515, 545-570, 652-653) ── -/

/-- handleWheel (App.tsx lines 502-515). With the ctrl or meta modifier the
zoom is multiplied by 0.9 (deltaY > 0) or 1.1 and clamped to [0.3, 5];
otherwise deltaX (plus deltaY under shift) scrolls horizontally clamped
to 0, and deltaY (unless shift) scrolls vertically clamped to
[0, maxScrollY]. -/
def handleWheel (ctrlKey shiftKey : Bool) (deltaX deltaY : ℚ)
    (st : PianoRollState) : PianoRollState :=
  if ctrlKey then
    let delta : ℚ := if deltaY > 0 then 9/10 else 11/10
    { st with zoom := max (3/10) (min 5 (st.zoom * delta)) }
  else
    { st with
        scrollX := max 0 (st.scrollX + deltaX +
          (if shiftKey then deltaY else 0)),
        scrollY := max 0 (min st.maxScrollY
          (st.scrollY + (if shiftKey then 0 else deltaY))) }

/-- The one-finger branch of onTouchMove (App.tsx lines 549-559): the pan
deltas (last position minus current) are added to the scroll and clamped
exactly as in the wheel handler. -/
def touchPan (dx dy : ℚ) (st : PianoRollState) : PianoRollState :=
  { st with
      scrollX := max 0 (st.scrollX + dx),
      scrollY := max 0 (min st.maxScrollY (st.scrollY + dy)) }

/-- The two-finger branch of onTouchMove (App.tsx lines 562-569): when a
previous pinch distance is on record, the distance ratio multiplies the
zoom, clamped to [0.3, 5]; pan is not touched. -/
def touchPinch (dist lastPinchDist : ℚ) (st : PianoRollState) :
    PianoRollState :=
  if lastPinchDist > 0 then
    { st with zoom := max (3/10) (min 5 (st.zoom * (dist / lastPinchDist))) }
  else st

/-- The zoom-in toolbar button (App.tsx line 652). -/
def zoomInButton (st : PianoRollState) : PianoRollState :=
  { st with zoom := min 5 (st.zoom * (125/100)) }

/-- The zoom-out toolbar button (App.tsx line 653). -/
def zoomOutButton (st : PianoRollState) : PianoRollState :=
  { st with zoom := max (3/10) (st.zoom * (8/10)) }

/- ── spec-side definitions ── -/

/-- Insertion into a sorted list of pitches. -/
def insertSorted (x : ℤ) : List ℤ → List ℤ
  | [] => [x]
  | y :: ys => if x ≤ y then x :: y :: ys else y :: insertSorted x ys

/-- Insertion sort on pitches. -/
def sortPitches : List ℤ → List ℤ
  | [] => []
  | x :: xs => insertSorted x (sortPitches xs)

/-- The median pitch of a list of notes, following the wording of the spec
(the MidiDocument-load auto-centering centers the vertical scroll on the
median pitch of the loaded notes): middle element of the sorted pitch
list, mean of the two middle elements at even length. -/
def medianPitch (notes : List MidiNote) : ℚ :=
  let sorted := sortPitches (notes.map MidiNote.pitch)
  match sorted.get? ((notes.length - 1) / 2), sorted.get? (notes.length / 2)
  with
  | some a, some b => (((a : ℤ) : ℚ) + ((b : ℤ) : ℚ)) / 2
  | _, _ => 0

/-- The vertical scroll that would center the viewport on the median pitch
of the loaded notes, as the spec words the auto-centering, clamped to 0
like the code clamp. -/
def specMedianScrollY (notes : List MidiNote) (st : PianoRollState) : ℚ :=
  max 0 (((MAX_PITCH : ℤ) - medianPitch notes) * (NOTE_HEIGHT_BASE * st.zoom)
    - st.canvasHeight / 2)

/- ── claim statement predicates ── -/

/-- The zoom clamp range of the spec: [0.3, 5.0]. -/
def ZoomInRange (z : ℚ) : Prop := 3/10 ≤ z ∧ z ≤ 5

/-- The ViewState bounds expected after each gesture operation: the zoom
stays in [0.3, 5], scroll and pan operations clamp scrollX to 0 and
scrollY to [0, maxScrollY], and zoom operations leave the scroll pair
untouched. -/
def GestureBoundsAfter (ctrlKey shiftKey : Bool)
    (deltaX deltaY dx dy dist lastPinchDist : ℚ)
    (st : PianoRollState) : Prop :=
  ZoomInRange (handleWheel ctrlKey shiftKey deltaX deltaY st).zoom ∧
  (ctrlKey = false →
    0 ≤ (handleWheel ctrlKey shiftKey deltaX deltaY st).scrollX ∧
    0 ≤ (handleWheel ctrlKey shiftKey deltaX deltaY st).scrollY ∧
    (handleWheel ctrlKey shiftKey deltaX deltaY st).scrollY ≤
      (handleWheel ctrlKey shiftKey deltaX deltaY st).maxScrollY) ∧
  (ctrlKey = true →
    (handleWheel ctrlKey shiftKey deltaX deltaY st).scrollX = st.scrollX ∧
    (handleWheel ctrlKey shiftKey deltaX deltaY st).scrollY = st.scrollY) ∧
  (0 ≤ (touchPan dx dy st).scrollX ∧
    0 ≤ (touchPan dx dy st).scrollY ∧
    (touchPan dx dy st).scrollY ≤ (touchPan dx dy st).maxScrollY ∧
    (touchPan dx dy st).zoom = st.zoom) ∧
  (ZoomInRange (touchPinch dist lastPinchDist st).zoom ∧
    (touchPinch dist lastPinchDist st).scrollX = st.scrollX ∧
    (touchPinch dist lastPinchDist st).scrollY = st.scrollY) ∧
  ZoomInRange (zoomInButton st).zoom ∧
  ZoomInRange (zoomOutButton st).zoom

/-- What the spec asks of play(): a no-op on an empty note list; otherwise
the scheduler is Playing, the reference time is now - playOffset, and the
pending triggers are exactly one per note whose end time is at or after
the seek offset; and each trigger carries delay max(0, start - offset),
the pitch, sustain capped at 4 seconds, and velocity-scaled amplitude. -/
def StartPlaybackSpec (now : ℚ) (st : PianoRollState) : Prop :=
  (st.notes.length = 0 → startPlayback now st = st) ∧
  (st.notes.length ≠ 0 →
    (startPlayback now st).isPlaying = true ∧
    (startPlayback now st).playStartTime = now - st.playOffset ∧
    (startPlayback now st).pending =
      (st.notes.filter
        (fun n => decide (st.playOffset ≤ n.time + n.duration))).map
        (mkTrigger st.playOffset)) ∧
  (∀ n : MidiNote, mkTrigger st.playOffset n =
    ⟨max 0 (n.time - st.playOffset), n.pitch, min n.duration 4,
     n.velocity * (8/10)⟩)

/-- Exact culling at one note: the note produces draw calls exactly when
its screen bounding box meets the clipped viewport rectangle
[keyW, W] x [0, H] in at least one point, and the drawn rectangle never
extends left of the gutter nor right of the canvas. -/
def CullingExactAt (n : MidiNote) (v : ViewState) (W H : ℚ) : Prop :=
  (noteDrawn n v W H ↔
    ∃ px py,
      (noteScreenX n v ≤ px ∧ px ≤ noteScreenX n v + noteScreenW n v ∧
       PIANO_KEY_WIDTH ≤ px ∧ px ≤ W) ∧
      (noteScreenY n v ≤ py ∧
       py ≤ noteScreenY n v + NOTE_HEIGHT_BASE * v.zoom ∧
       0 ≤ py ∧ py ≤ H)) ∧
  PIANO_KEY_WIDTH ≤ noteClampX n v ∧
  noteClampX n v + noteClampW n v W ≤ W

/- ── concrete fixtures ── -/

/-- The initial component state (App.tsx lines 115-129), on a 800 by 600
canvas at device pixel ratio 1. -/
def st0 : PianoRollState :=
  { midi := none, notes := [], zoom := 1, scrollX := 0, scrollY := 0,
    isPlaying := false, playStartTime := 0, playOffset := 0, duration := 0,
    fileName := "", isAutoLoading := false, autoLoadError := none,
    pending := [], sustaining := false,
    canvasWidth := 800, canvasHeight := 600, dpr := 1 }

/-- A state scrolled to the very bottom of a short canvas at zoom 1: its
maxScrollY is 88 * 14 - 100 = 1132. -/
def bottomScrolledState : PianoRollState :=
  { st0 with scrollY := 1132, canvasHeight := 100 }

/-- A state with a 100 pixel tall canvas. -/
def shortCanvasState : PianoRollState := { st0 with canvasHeight := 100 }

/-- A parsed document with pitches 60, 60, 100: median pitch 60, mid-range
pitch 80. -/
def threeNoteDoc : ParsedMidi :=
  ⟨[[⟨60, 0, 1, 1/2⟩, ⟨60, 1, 1, 1/2⟩, ⟨100, 2, 1, 1/2⟩]]⟩

/-- A one-note parsed document, result of load request A. -/
def docA : ParsedMidi := ⟨[[⟨60, 0, 1, 1⟩]]⟩

/-- A one-note parsed document, result of load request B. -/
def docB : ParsedMidi := ⟨[[⟨72, 0, 1, 1⟩]]⟩

/-- A state holding one loaded note. -/
def oneNoteState : PianoRollState :=
  { st0 with notes := [⟨60, 1, 2, 1/2, 0⟩] }

/-- A parsed document whose only note has duration 0. -/
def zeroDurDoc : ParsedMidi := ⟨[[⟨60, 1, 0, 1/2⟩]]⟩

/- ── helper lemmas ── -/

theorem zoomClamp_range (z : ℚ) : ZoomInRange (max (3/10) (min 5 z)) :=
  ⟨le_max_left _ _, max_le (by norm_num) (min_le_left _ _)⟩

theorem scrollClamp_range (M x : ℚ) (hM : 0 ≤ M) :
    0 ≤ max 0 (min M x) ∧ max 0 (min M x) ≤ M :=
  ⟨le_max_left _ _, max_le hM (min_le_left _ _)⟩

theorem maxScrollY_nonneg (st : PianoRollState) : 0 ≤ st.maxScrollY :=
  le_max_left _ _

theorem flattenTracksFrom_mem (i : ℕ) (ts : List (List ParsedNote))
    (n : MidiNote) (hn : n ∈ flattenTracksFrom i ts) :
    ∃ t ∈ ts, ∃ pn ∈ t, n.pitch = pn.midi ∧ n.time = pn.time ∧
      n.duration = pn.duration ∧ n.velocity = pn.velocity := by
  induction ts generalizing i with
  | nil => simp [flattenTracksFrom] at hn
  | cons t ts ih =>
    simp only [flattenTracksFrom, List.mem_append, List.mem_map] at hn
    rcases hn with ⟨pn, hpn, rfl⟩ | h
    · exact ⟨t, List.mem_cons_self _ _, pn, hpn, rfl, rfl, rfl, rfl⟩
    · obtain ⟨t2, ht2, r⟩ := ih (i + 1) h
      exact ⟨t2, List.mem_cons_of_mem _ ht2, r⟩

theorem loadMidi_some_notes (parsed : ParsedMidi) (name : String)
    (st : PianoRollState) :
    (loadMidi (some parsed) name st).notes = flattenTracks parsed.tracks := by
  unfold loadMidi
  dsimp only
  split <;> simp [stopPlayback]

theorem loadMidi_some_fileName (parsed : ParsedMidi) (name : String)
    (st : PianoRollState) :
    (loadMidi (some parsed) name st).fileName = name := by
  unfold loadMidi
  dsimp only
  split <;> simp [stopPlayback]

theorem loadMidi_some_midi (parsed : ParsedMidi) (name : String)
    (st : PianoRollState) :
    (loadMidi (some parsed) name st).midi = some parsed := by
  unfold loadMidi
  dsimp only
  split <;> simp [stopPlayback]

/- ── claim theorems ── -/

/-- C4: for every pitch and time the draw code positions content at
pitchToY(p, v) = (MAX_PITCH - p) * BASE_NOTE_HEIGHT * zoom - scrollY and
timeToX(t, v) = GUTTER_WIDTH + t * BASE_PPS * zoom - scrollX, the gutter
width is a constant not scaled by zoom, a lower pitch maps to a strictly
greater y, and a note starting at 0.5 s at zoom 1 and scroll (0, 0)
begins exactly at GUTTER_WIDTH + 0.5 * BASE_PPS pixels. -/
theorem C4_coordinate_positions (p1 p2 t : ℚ) (v : ViewState)
    (hz : 0 < v.zoom) (hp : p1 < p2) :
    pitchToY p2 v < pitchToY p1 v ∧
    pitchToY p1 v =
      (((MAX_PITCH : ℤ) : ℚ) - p1) * (NOTE_HEIGHT_BASE * v.zoom) - v.scrollY ∧
    timeToX t v =
      PIANO_KEY_WIDTH + t * (PIXELS_PER_SEC_BASE * v.zoom) - v.scrollX ∧
    (∀ z : ℚ, timeToX 0 ⟨z, 0, 0⟩ = PIANO_KEY_WIDTH) ∧
    timeToX (1/2) ⟨1, 0, 0⟩ = PIANO_KEY_WIDTH + (1/2) * PIXELS_PER_SEC_BASE := by
  refine ⟨?_, rfl, rfl, ?_, ?_⟩
  · unfold pitchToY
    have hk : (0:ℚ) < NOTE_HEIGHT_BASE * v.zoom := by
      unfold NOTE_HEIGHT_BASE; positivity
    nlinarith [mul_lt_mul_of_pos_right hp hk]
  · intro z; simp [timeToX]
  · norm_num [timeToX, PIANO_KEY_WIDTH, PIXELS_PER_SEC_BASE]

/-- Witness for C4 at pitches 60 and 64, zoom 1, scroll (0, 0). -/
theorem C4_coordinate_positions_witness :
    ((0:ℚ) < (⟨1, 0, 0⟩ : ViewState).zoom ∧ (60:ℚ) < 64) ∧
    (pitchToY 64 ⟨1, 0, 0⟩ < pitchToY 60 ⟨1, 0, 0⟩ ∧
     pitchToY 60 ⟨1, 0, 0⟩ =
       (((MAX_PITCH : ℤ) : ℚ) - 60) *
         (NOTE_HEIGHT_BASE * (⟨1, 0, 0⟩ : ViewState).zoom) -
         (⟨1, 0, 0⟩ : ViewState).scrollY ∧
     timeToX (1/2) ⟨1, 0, 0⟩ =
       PIANO_KEY_WIDTH + (1/2) * (PIXELS_PER_SEC_BASE *
         (⟨1, 0, 0⟩ : ViewState).zoom) - (⟨1, 0, 0⟩ : ViewState).scrollX ∧
     (∀ z : ℚ, timeToX 0 ⟨z, 0, 0⟩ = PIANO_KEY_WIDTH) ∧
     timeToX (1/2) ⟨1, 0, 0⟩ = PIANO_KEY_WIDTH + (1/2) * PIXELS_PER_SEC_BASE) :=
  ⟨⟨by norm_num, by norm_num⟩,
   C4_coordinate_positions 60 64 (1/2) ⟨1, 0, 0⟩ (by norm_num) (by norm_num)⟩

/-- C5: play() with an empty note list is a no-op; otherwise it records
the audio-clock reference, schedules exactly one trigger per note whose
end time is at or after the seek offset, with delay max(0, start -
offset), sustain capped at 4 seconds and velocity-scaled amplitude, and
moves to Playing. -/
theorem C5_start_playback (now : ℚ) (st : PianoRollState) :
    StartPlaybackSpec now st := by
  unfold StartPlaybackSpec
  refine ⟨?_, ?_, fun n => rfl⟩
  · intro h
    unfold startPlayback
    simp [h]
  · intro h
    unfold startPlayback
    rw [if_neg h]
    refine ⟨rfl, rfl, ?_⟩
    have hf : st.notes.filter
        (fun n => ! decide (n.time + n.duration < st.playOffset)) =
        st.notes.filter
        (fun n => decide (st.playOffset ≤ n.time + n.duration)) := by
      apply List.filter_congr
      intro a _
      rw [← decide_not]
      exact decide_eq_decide.mpr not_lt
    simp only [hf]

/-- Witness for C5 on a state holding one note. -/
theorem C5_start_playback_witness : StartPlaybackSpec 10 oneNoteState :=
  C5_start_playback 10 oneNoteState

/-- C6: stop() cancels all pending triggers, releases sustaining voices,
resets the seek offset to 0 and moves to Stopped; it is idempotent, and
from any state it leaves Stopped with offset 0 and nothing pending. -/
theorem C6_stop_playback (st : PianoRollState) :
    (stopPlayback st).pending = [] ∧
    (stopPlayback st).isPlaying = false ∧
    (stopPlayback st).playOffset = 0 ∧
    (stopPlayback st).sustaining = false ∧
    stopPlayback (stopPlayback st) = stopPlayback st := by
  simp [stopPlayback]

/-- C9: a parse failure of a local byte buffer and a failed or not-found
remote fetch leave the ViewState and the previously loaded document
untouched; a remote failure only records its reason for display. -/
theorem C9_failures_preserve_state (name msg : String)
    (st : PianoRollState) :
    loadMidi none name st = st ∧
    (resolveLoad (.failed msg) st).zoom = st.zoom ∧
    (resolveLoad (.failed msg) st).scrollX = st.scrollX ∧
    (resolveLoad (.failed msg) st).scrollY = st.scrollY ∧
    (resolveLoad (.failed msg) st).notes = st.notes ∧
    (resolveLoad (.failed msg) st).midi = st.midi ∧
    (resolveLoad (.failed msg) st).fileName = st.fileName ∧
    (resolveLoad (.failed msg) st).autoLoadError = some msg ∧
    (resolveLoad .notFound st).zoom = st.zoom ∧
    (resolveLoad .notFound st).scrollX = st.scrollX ∧
    (resolveLoad .notFound st).scrollY = st.scrollY ∧
    (resolveLoad .notFound st).notes = st.notes ∧
    (resolveLoad .notFound st).midi = st.midi ∧
    (resolveLoad .notFound st).fileName = st.fileName := by
  simp [loadMidi, resolveLoad]

/-- C10: every successful load resets scrollX to 0 and stops playback
(pending triggers cancelled, seek offset 0, Stopped), and leaves the
zoom factor unchanged. -/
theorem C10_load_resets_scroll_and_playback (parsed : ParsedMidi)
    (name : String) (st : PianoRollState) :
    (loadMidi (some parsed) name st).scrollX = 0 ∧
    (loadMidi (some parsed) name st).isPlaying = false ∧
    (loadMidi (some parsed) name st).pending = [] ∧
    (loadMidi (some parsed) name st).playOffset = 0 ∧
    (loadMidi (some parsed) name st).zoom = st.zoom := by
  unfold loadMidi
  dsimp only
  split <;> simp [stopPlayback]

/-- C7: culling is exact. A note produces draw calls exactly when its
screen bounding box meets the clipped viewport rectangle in at least one
point, and the drawn rectangle is clamped inside the clipped region, so
it never paints over the gutter. -/
theorem C7_culling_exact (n : MidiNote) (v : ViewState) (W H : ℚ)
    (hw : 0 ≤ noteScreenW n v) (hnh : 0 ≤ NOTE_HEIGHT_BASE * v.zoom)
    (hW : PIANO_KEY_WIDTH ≤ W) (hH : 0 ≤ H) :
    CullingExactAt n v W H := by
  unfold CullingExactAt
  refine ⟨⟨?_, ?_⟩, ?_, ?_⟩
  · intro hd
    unfold noteDrawn noteCulled at hd
    push_neg at hd
    obtain ⟨h1, h2, h3, h4⟩ := hd
    exact ⟨max (noteScreenX n v) PIANO_KEY_WIDTH, max (noteScreenY n v) 0,
      ⟨le_max_left _ _, max_le (by linarith) h1, le_max_right _ _,
       max_le h2 hW⟩,
      ⟨le_max_left _ _, max_le (by linarith) h3, le_max_right _ _,
       max_le h4 hH⟩⟩
  · rintro ⟨px, py, ⟨a1, a2, a3, a4⟩, ⟨b1, b2, b3, b4⟩⟩
    unfold noteDrawn noteCulled
    push_neg
    exact ⟨by linarith, by linarith, by linarith, by linarith⟩
  · unfold noteClampX
    exact le_max_right _ _
  · unfold noteClampW noteClampX
    have hm := min_le_right (noteScreenX n v + noteScreenW n v) W
    linarith

/-- Witness for C7 at a concrete note and view. -/
theorem C7_culling_exact_witness :
    (0 ≤ noteScreenW ⟨60, 0, 1, 1, 0⟩ ⟨1, 0, 0⟩ ∧
     0 ≤ NOTE_HEIGHT_BASE * (⟨1, 0, 0⟩ : ViewState).zoom ∧
     PIANO_KEY_WIDTH ≤ (800:ℚ) ∧ (0:ℚ) ≤ 600) ∧
    CullingExactAt ⟨60, 0, 1, 1, 0⟩ ⟨1, 0, 0⟩ 800 600 :=
  ⟨⟨by norm_num [noteScreenW, PIXELS_PER_SEC_BASE],
    by norm_num [NOTE_HEIGHT_BASE],
    by norm_num [PIANO_KEY_WIDTH], by norm_num⟩,
   C7_culling_exact ⟨60, 0, 1, 1, 0⟩ ⟨1, 0, 0⟩ 800 600
     (by norm_num [noteScreenW, PIXELS_PER_SEC_BASE])
     (by norm_num [NOTE_HEIGHT_BASE])
     (by norm_num [PIANO_KEY_WIDTH]) (by norm_num)⟩

/-- C1 as stated is false: a modifier-wheel zoom-out leaves scrollY at its
old value, which exceeds maxScrollY at the new zoom. Starting from a
state satisfying every bound (zoom 1, scrollY = maxScrollY = 1132 on a
100 pixel canvas), one zoom-out wheel event leaves scrollY above the new
maxScrollY. -/
theorem C1_counterexample :
    bottomScrolledState.scrollX = 0 ∧
    bottomScrolledState.zoom = 1 ∧
    0 ≤ bottomScrolledState.scrollY ∧
    bottomScrolledState.scrollY ≤ bottomScrolledState.maxScrollY ∧
    (handleWheel true false 0 1 bottomScrolledState).scrollY >
      (handleWheel true false 0 1 bottomScrolledState).maxScrollY := by
  norm_num [bottomScrolledState, st0, handleWheel,
    PianoRollState.maxScrollY, PianoRollState.totalHeight,
    PianoRollState.noteHeight, MAX_PITCH, MIN_PITCH, NOTE_HEIGHT_BASE,
    max_def, min_def]

/-- C1 amended: after every gesture operation scrollX stays nonnegative
and the zoom stays in [0.3, 5] (given it was in range before); scroll
and pan operations additionally re-establish 0 <= scrollY <= maxScrollY;
but zoom mutations (modifier wheel, pinch, zoom buttons) leave scrollX
and scrollY unchanged without re-clamping, so scrollY can exceed the
maxScrollY of the new zoom until the next scroll. -/
theorem C1_gesture_bounds (ctrlKey shiftKey : Bool)
    (deltaX deltaY dx dy dist lastPinchDist : ℚ) (st : PianoRollState)
    (hz : ZoomInRange st.zoom) :
    GestureBoundsAfter ctrlKey shiftKey deltaX deltaY dx dy dist
      lastPinchDist st := by
  obtain ⟨hz1, hz2⟩ := hz
  have hM : 0 ≤ st.maxScrollY := maxScrollY_nonneg st
  have hMpan : (touchPan dx dy st).maxScrollY = st.maxScrollY := by
    simp [touchPan, PianoRollState.maxScrollY, PianoRollState.totalHeight,
      PianoRollState.noteHeight]
  unfold GestureBoundsAfter
  refine ⟨?_, ?_, ?_, ?_, ?_, ?_, ?_⟩
  · cases ctrlKey <;> simp [handleWheel]
    · exact ⟨hz1, hz2⟩
    · exact zoomClamp_range _
  · intro hc
    subst hc
    have hMw : (handleWheel false shiftKey deltaX deltaY st).maxScrollY =
        st.maxScrollY := by
      simp [handleWheel, PianoRollState.maxScrollY,
        PianoRollState.totalHeight, PianoRollState.noteHeight]
    rw [hMw]
    simp only [handleWheel, Bool.false_eq_true, if_false]
    exact ⟨le_max_left _ _, (scrollClamp_range _ _ hM).1,
      (scrollClamp_range _ _ hM).2⟩
  · intro hc
    subst hc
    simp [handleWheel]
  · rw [hMpan]
    unfold touchPan
    exact ⟨le_max_left _ _, (scrollClamp_range _ _ hM).1,
      (scrollClamp_range _ _ hM).2, rfl⟩
  · unfold touchPinch
    split
    · exact ⟨zoomClamp_range _, rfl, rfl⟩
    · exact ⟨⟨hz1, hz2⟩, rfl, rfl⟩
  · unfold zoomInButton ZoomInRange
    constructor
    · have : (3:ℚ)/10 ≤ st.zoom * (125/100) := by nlinarith
      exact le_min (by norm_num) this
    · exact min_le_left _ _
  · unfold zoomOutButton ZoomInRange
    constructor
    · exact le_max_left _ _
    · have : st.zoom * (8/10) ≤ 5 := by nlinarith
      exact max_le (by norm_num) this

/-- Witness for the amended C1 at the initial state. -/
theorem C1_gesture_bounds_witness :
    ZoomInRange st0.zoom ∧
    GestureBoundsAfter true true 3 (-7) 11 (-13) 2 1 st0 :=
  ⟨by norm_num [ZoomInRange, st0],
   C1_gesture_bounds true true 3 (-7) 11 (-13) 2 1 st0
     (by norm_num [ZoomInRange, st0])⟩

/-- C2 as stated is false: the auto-centering uses the mid-range pitch
(minPitch + maxPitch) / 2, not the median. For pitches 60, 60, 100 the
median is 60 and a median-centered scroll would be 622, but the load
sets scrollY to 342, centered on pitch 80. -/
theorem C2_counterexample :
    medianPitch (loadMidi (some threeNoteDoc) "m.mid"
      shortCanvasState).notes = 60 ∧
    specMedianScrollY (loadMidi (some threeNoteDoc) "m.mid"
      shortCanvasState).notes shortCanvasState = 622 ∧
    (loadMidi (some threeNoteDoc) "m.mid" shortCanvasState).scrollY = 342 ∧
    (loadMidi (some threeNoteDoc) "m.mid" shortCanvasState).scrollY ≠
      specMedianScrollY (loadMidi (some threeNoteDoc) "m.mid"
        shortCanvasState).notes shortCanvasState := by
  norm_num [loadMidi, flattenTracks, flattenTracksFrom, midRangePitch,
    medianPitch, sortPitches, insertSorted, specMedianScrollY, stopPlayback,
    threeNoteDoc, shortCanvasState, st0, MAX_PITCH, NOTE_HEIGHT_BASE,
    max_def, min_def]

/-- C2 amended: on a load with at least one note, the vertical scroll is
set (clamped to be nonnegative) so that the viewport is centered on the
mid-range pitch (minPitch + maxPitch) / 2 of the loaded notes: whenever
the clamp does not bite, that pitch lands exactly at half the canvas
height. -/
theorem C2_centering_on_midrange (parsed : ParsedMidi) (name : String)
    (st : PianoRollState)
    (hne : 0 < (flattenTracks parsed.tracks).length)
    (hc : 0 ≤ (((MAX_PITCH : ℤ) : ℚ) -
        midRangePitch (flattenTracks parsed.tracks))
        * (NOTE_HEIGHT_BASE * st.zoom) - st.canvasHeight / 2) :
    0 ≤ (loadMidi (some parsed) name st).scrollY ∧
    pitchToY (midRangePitch (flattenTracks parsed.tracks))
      ((loadMidi (some parsed) name st).view) = st.canvasHeight / 2 := by
  unfold loadMidi
  dsimp only
  rw [if_pos hne]
  constructor
  · simp only [stopPlayback]
    exact le_max_left _ _
  · simp only [stopPlayback, PianoRollState.view, pitchToY]
    rw [max_eq_right hc]
    ring

/-- Witness for the amended C2 on the three-note document. -/
theorem C2_centering_on_midrange_witness :
    (0 < (flattenTracks threeNoteDoc.tracks).length ∧
     0 ≤ (((MAX_PITCH : ℤ) : ℚ) -
        midRangePitch (flattenTracks threeNoteDoc.tracks))
        * (NOTE_HEIGHT_BASE * shortCanvasState.zoom) -
        shortCanvasState.canvasHeight / 2) ∧
    (0 ≤ (loadMidi (some threeNoteDoc) "m.mid" shortCanvasState).scrollY ∧
     pitchToY (midRangePitch (flattenTracks threeNoteDoc.tracks))
       ((loadMidi (some threeNoteDoc) "m.mid" shortCanvasState).view) =
       shortCanvasState.canvasHeight / 2) := by
  have h1 : 0 < (flattenTracks threeNoteDoc.tracks).length := by
    norm_num [flattenTracks, flattenTracksFrom, threeNoteDoc]
  have h2 : 0 ≤ (((MAX_PITCH : ℤ) : ℚ) -
      midRangePitch (flattenTracks threeNoteDoc.tracks))
      * (NOTE_HEIGHT_BASE * shortCanvasState.zoom) -
      shortCanvasState.canvasHeight / 2 := by
    norm_num [midRangePitch, flattenTracks, flattenTracksFrom, threeNoteDoc,
      shortCanvasState, st0, MAX_PITCH, NOTE_HEIGHT_BASE, max_def, min_def]
  exact ⟨⟨h1, h2⟩,
    C2_centering_on_midrange threeNoteDoc "m.mid" shortCanvasState h1 h2⟩

/-- C3 as stated is false: the completion handler applies its response
unconditionally, with no request id check. Issuing A then B, resolving B
first and then A, leaves the state holding the file name and notes of A,
the stale response, not B. -/
theorem C3_counterexample :
    (resolveLoad (.success (some docA) "a.mid")
        (resolveLoad (.success (some docB) "b.mid")
          (issueLoad (issueLoad st0)))).fileName = "a.mid" ∧
    (resolveLoad (.success (some docA) "a.mid")
        (resolveLoad (.success (some docB) "b.mid")
          (issueLoad (issueLoad st0)))).notes = [⟨60, 0, 1, 1, 0⟩] ∧
    ("a.mid" : String) ≠ "b.mid" := by
  refine ⟨?_, ?_, by decide⟩ <;>
    norm_num [resolveLoad, issueLoad, loadMidi, flattenTracks,
      flattenTracksFrom, stopPlayback, docA, docB, st0, midRangePitch,
      MAX_PITCH, NOTE_HEIGHT_BASE, max_def, min_def]

/-- C3 amended: load resolution is last-completed-wins, not
last-requested-wins: whichever successful response resolves last
determines the final document, file name and note list. -/
theorem C3_last_completed_wins (dA dB : ParsedMidi) (nA nB : String)
    (st : PianoRollState) :
    (resolveLoad (.success (some dA) nA)
      (resolveLoad (.success (some dB) nB) st)).fileName = nA ∧
    (resolveLoad (.success (some dA) nA)
      (resolveLoad (.success (some dB) nB) st)).midi = some dA ∧
    (resolveLoad (.success (some dA) nA)
      (resolveLoad (.success (some dB) nB) st)).notes =
      flattenTracks dA.tracks := by
  simp [resolveLoad, loadMidi_some_fileName, loadMidi_some_midi,
    loadMidi_some_notes]

/-- C8 as stated is false: loadMidi copies the parsed duration unchanged,
so a parsed note of duration 0 is kept in the document, and at the
post-load view it survives culling and is drawn with width 0. -/
theorem C8_counterexample :
    (loadMidi (some zeroDurDoc) "z.mid" st0).notes = [⟨60, 1, 0, 1/2, 0⟩] ∧
    ¬ (0 < (⟨60, 1, 0, 1/2, 0⟩ : MidiNote).duration) ∧
    noteDrawn ⟨60, 1, 0, 1/2, 0⟩
      ((loadMidi (some zeroDurDoc) "z.mid" st0).view) 800 600 ∧
    noteScreenW ⟨60, 1, 0, 1/2, 0⟩
      ((loadMidi (some zeroDurDoc) "z.mid" st0).view) = 0 := by
  refine ⟨?_, by norm_num, ?_, ?_⟩ <;>
    norm_num [loadMidi, flattenTracks, flattenTracksFrom, stopPlayback,
      zeroDurDoc, st0, midRangePitch, PianoRollState.view, noteDrawn,
      noteCulled, noteScreenX, noteScreenY, noteScreenW, timeToX, pitchToY,
      MAX_PITCH, NOTE_HEIGHT_BASE, PIXELS_PER_SEC_BASE, PIANO_KEY_WIDTH,
      max_def, min_def]

/-- C8 amended: every note a load places in the document comes verbatim
from some parsed note: pitch, start time and duration are passed through
with no rejection and no clamping, so non-positive durations reach the
document unchanged. -/
theorem C8_durations_not_clamped (parsed : ParsedMidi) (name : String)
    (st : PianoRollState) (n : MidiNote)
    (hn : n ∈ (loadMidi (some parsed) name st).notes) :
    ∃ t ∈ parsed.tracks, ∃ pn ∈ t, n.duration = pn.duration ∧
      n.pitch = pn.midi ∧ n.time = pn.time := by
  rw [loadMidi_some_notes] at hn
  unfold flattenTracks at hn
  obtain ⟨t, ht, pn, hpn, h1, h2, h3, _⟩ :=
    flattenTracksFrom_mem 0 parsed.tracks n hn
  exact ⟨t, ht, pn, hpn, h3, h1, h2⟩

/-- Witness for the amended C8 on the zero-duration document. -/
theorem C8_durations_not_clamped_witness :
    ((⟨60, 1, 0, 1/2, 0⟩ : MidiNote) ∈
      (loadMidi (some zeroDurDoc) "z.mid" st0).notes) ∧
    (∃ t ∈ zeroDurDoc.tracks, ∃ pn ∈ t,
      (⟨60, 1, 0, 1/2, 0⟩ : MidiNote).duration = pn.duration ∧
      (⟨60, 1, 0, 1/2, 0⟩ : MidiNote).pitch = pn.midi ∧
      (⟨60, 1, 0, 1/2, 0⟩ : MidiNote).time = pn.time) := by
  have hm : (⟨60, 1, 0, 1/2, 0⟩ : MidiNote) ∈
      (loadMidi (some zeroDurDoc) "z.mid" st0).notes := by
    norm_num [loadMidi, flattenTracks, flattenTracksFrom, stopPlayback,
      zeroDurDoc, st0, midRangePitch, MAX_PITCH, NOTE_HEIGHT_BASE,
      max_def, min_def]
  exact ⟨hm, C8_durations_not_clamped zeroDurDoc "z.mid" st0 _ hm⟩

end PianoRollApp
